import Mathlib

/-!
Verification of the event-resolution engine of `src/system/lib/keymap-util.py`
(class `KeyMapper`): key-identifier normalization, the four-tier mapping
cascade, the dotool press-state transport, window probing, and per-event
dispatch.  Python dictionaries are embedded as association lists (first
binding wins, insertion order preserved), machine integers as `Int`,
fallible code as `Except`/`Option`, and raised exceptions as `Except.error`.
-/

set_option maxRecDepth 8000

namespace KeymapUtil

/-- Python str.upper on the ASCII names this script handles, computed on
the character list so that proofs can evaluate it. -/
def pyUpper (s : String) : String := ⟨s.data.map Char.toUpper⟩

/-- Python str.lower on the ASCII names this script handles. -/
def pyLower (s : String) : String := ⟨s.data.map Char.toLower⟩

/-- Python str.startswith. -/
def pyStartsWith (s pre : String) : Bool := pre.data.isPrefixOf s.data

/-- Python str.strip with no argument: surrounding whitespace removed. -/
def pyStrip (s : String) : String :=
  ⟨((s.data.dropWhile Char.isWhitespace).reverse.dropWhile
      Char.isWhitespace).reverse⟩

/-- Nonempty all-digit decimal parse, the digit-run core of Python
int(). -/
def pyToNat? (s : String) : Option Nat :=
  if s.data.isEmpty then none
  else if s.data.all Char.isDigit then
    some (s.data.foldl (fun a c => a * 10 + (c.toNat - 48)) 0)
  else none

/-- Fragment of the evdev key table `ecodes.KEY` (code, canonical name):
exactly the key constants referenced by keymap-util.py, plus `KEY_SEMICOLON`
as a representative of keys outside the script's dotool name map.  Values
are the Linux input-event-codes values. -/
def ecodesKEY : List (Int × String) :=
  [(1, "KEY_ESC"), (2, "KEY_1"), (3, "KEY_2"), (4, "KEY_3"), (5, "KEY_4"),
   (6, "KEY_5"), (7, "KEY_6"), (8, "KEY_7"), (9, "KEY_8"), (10, "KEY_9"),
   (11, "KEY_0"), (14, "KEY_BACKSPACE"), (15, "KEY_TAB"),
   (16, "KEY_Q"), (17, "KEY_W"), (18, "KEY_E"), (19, "KEY_R"), (20, "KEY_T"),
   (21, "KEY_Y"), (22, "KEY_U"), (23, "KEY_I"), (24, "KEY_O"), (25, "KEY_P"),
   (28, "KEY_ENTER"), (29, "KEY_LEFTCTRL"),
   (30, "KEY_A"), (31, "KEY_S"), (32, "KEY_D"), (33, "KEY_F"), (34, "KEY_G"),
   (35, "KEY_H"), (36, "KEY_J"), (37, "KEY_K"), (38, "KEY_L"),
   (39, "KEY_SEMICOLON"), (42, "KEY_LEFTSHIFT"),
   (44, "KEY_Z"), (45, "KEY_X"), (46, "KEY_C"), (47, "KEY_V"), (48, "KEY_B"),
   (49, "KEY_N"), (50, "KEY_M"), (54, "KEY_RIGHTSHIFT"), (56, "KEY_LEFTALT"),
   (57, "KEY_SPACE"),
   (59, "KEY_F1"), (60, "KEY_F2"), (61, "KEY_F3"), (62, "KEY_F4"),
   (63, "KEY_F5"), (64, "KEY_F6"), (65, "KEY_F7"), (66, "KEY_F8"),
   (67, "KEY_F9"), (68, "KEY_F10"), (87, "KEY_F11"), (88, "KEY_F12"),
   (97, "KEY_RIGHTCTRL"), (100, "KEY_RIGHTALT"),
   (102, "KEY_HOME"), (103, "KEY_UP"), (104, "KEY_PAGEUP"), (105, "KEY_LEFT"),
   (106, "KEY_RIGHT"), (107, "KEY_END"), (108, "KEY_DOWN"),
   (109, "KEY_PAGEDOWN"), (110, "KEY_INSERT"), (111, "KEY_DELETE"),
   (125, "KEY_LEFTMETA"), (126, "KEY_RIGHTMETA"),
   (183, "KEY_F13"), (184, "KEY_F14"), (185, "KEY_F15"), (186, "KEY_F16"),
   (187, "KEY_F17"), (188, "KEY_F18"), (189, "KEY_F19"), (190, "KEY_F20"),
   (191, "KEY_F21"), (192, "KEY_F22"), (193, "KEY_F23"), (194, "KEY_F24")]

/-- The `key_name_map` dict of `KeyMapper.keycode_to_dotool_name`
(keymap-util.py lines 163-191): Linux keycode to dotool key name. -/
def key_name_map : List (Int × String) :=
  [(30, "a"), (48, "b"), (46, "c"), (32, "d"), (18, "e"), (33, "f"),
   (34, "g"), (35, "h"), (23, "i"), (36, "j"), (37, "k"), (38, "l"),
   (50, "m"), (49, "n"), (24, "o"), (25, "p"), (16, "q"), (19, "r"),
   (31, "s"), (20, "t"), (22, "u"), (47, "v"), (17, "w"), (45, "x"),
   (21, "y"), (44, "z"),
   (2, "1"), (3, "2"), (4, "3"), (5, "4"), (6, "5"), (7, "6"), (8, "7"),
   (9, "8"), (10, "9"), (11, "0"),
   (57, "space"), (28, "enter"), (15, "tab"), (14, "backspace"),
   (1, "escape"), (42, "shift"), (54, "shift"), (29, "ctrl"), (97, "ctrl"),
   (56, "alt"), (100, "alt"), (125, "super"), (126, "super"),
   (103, "up"), (108, "down"), (105, "left"), (106, "right"),
   (102, "home"), (107, "end"), (104, "pageup"), (109, "pagedown"),
   (111, "delete"), (110, "insert"),
   (59, "f1"), (60, "f2"), (61, "f3"), (62, "f4"), (63, "f5"), (64, "f6"),
   (65, "f7"), (66, "f8"), (67, "f9"), (68, "f10"), (87, "f11"), (88, "f12"),
   (183, "f13"), (184, "f14"), (185, "f15"), (186, "f16"), (187, "f17"),
   (188, "f18"), (189, "f19"), (190, "f20"), (191, "f21"), (192, "f22"),
   (193, "f23"), (194, "f24")]

/-- The `char_map` dict of `KeyMapper.name_to_keycode`
(keymap-util.py lines 216-227): single lowercase character to keycode. -/
def char_map : List (String × Int) :=
  [("a", 30), ("b", 48), ("c", 46), ("d", 32), ("e", 18), ("f", 33),
   ("g", 34), ("h", 35), ("i", 23), ("j", 36), ("k", 37), ("l", 38),
   ("m", 50), ("n", 49), ("o", 24), ("p", 25), ("q", 16), ("r", 19),
   ("s", 31), ("t", 20), ("u", 22), ("v", 47), ("w", 17), ("x", 45),
   ("y", 21), ("z", 44),
   ("1", 2), ("2", 3), ("3", 4), ("4", 5), ("5", 6), ("6", 7), ("7", 8),
   ("8", 9), ("9", 10), ("0", 11)]

/-- The `name_map` dict of `KeyMapper.name_to_keycode`
(keymap-util.py lines 232-247): common lowercase key names to keycodes. -/
def name_map : List (String × Int) :=
  [("space", 57), ("enter", 28), ("tab", 15), ("backspace", 14),
   ("escape", 1), ("esc", 1), ("shift", 42), ("ctrl", 29), ("control", 29),
   ("alt", 56), ("super", 125), ("meta", 125),
   ("up", 103), ("down", 108), ("left", 105), ("right", 106),
   ("home", 102), ("end", 107), ("pageup", 104), ("pagedown", 109),
   ("delete", 111), ("insert", 110),
   ("f1", 59), ("f2", 60), ("f3", 61), ("f4", 62), ("f5", 63), ("f6", 64),
   ("f7", 65), ("f8", 66), ("f9", 67), ("f10", 68), ("f11", 87),
   ("f12", 88), ("f13", 183), ("f14", 184), ("f15", 185), ("f16", 186),
   ("f17", 187), ("f18", 188), ("f19", 189), ("f20", 190), ("f21", 191),
   ("f22", 192), ("f23", 193), ("f24", 194)]

/-- Embeds `KeyMapper.keycode_to_dotool_name` (lines 157-197): canonical dotool
name for a keycode, with the synthetic fallback of the letter k, a colon
and the decimal code.  The Python signature says Optional but every path
returns a string. -/
def keycode_to_dotool_name (key_code : Int) : String :=
  match List.lookup key_code key_name_map with
  | some n => n
  | none => "k:" ++ toString key_code

/-- Embeds `KeyMapper.name_to_keycode` (lines 199-251): uppercase and force a
KEY underscore prefix, search the evdev table; then single-character map
on the lowercased input; then the common-name map. -/
def nameLookupTarget (key_name : String) : String :=
  let key_name_upper := pyUpper key_name
  if pyStartsWith key_name_upper "KEY_" then key_name_upper
  else "KEY_" ++ key_name_upper

/-- Embeds `KeyMapper.name_to_keycode`, continued: the three lookup phases. -/
def name_to_keycode (key_name : String) : Option Int :=
  match ecodesKEY.find? (fun p => p.2 == nameLookupTarget key_name) with
  | some p => some p.1
  | none =>
    match (if key_name.length == 1 then List.lookup (pyLower key_name) char_map
           else none) with
    | some c => some c
    | none => List.lookup (pyLower key_name) name_map

/-- Python's built-in decimal int parser as used by `int(key)` on
line 269: surrounding whitespace stripped, optional single sign, nonempty
digit run.  (Underscore digit grouping is not modelled.) -/
def pyInt? (s : String) : Option Int :=
  let t := pyStrip s
  if pyStartsWith t "-" then (pyToNat? (t.drop 1)).map (fun n => -(n : Int))
  else if pyStartsWith t "+" then (pyToNat? (t.drop 1)).map (fun n => (n : Int))
  else (pyToNat? t).map (fun n => (n : Int))

/-- Embeds `KeyMapper.normalize_config_key` (lines 253-275): name resolution
first, decimal keycode parsing only if the name lookup failed; both
components none when neither succeeds. -/
def normalize_config_key (key : String) : Option Int × Option String :=
  match name_to_keycode key with
  | some keycode => (some keycode, some (keycode_to_dotool_name keycode))
  | none =>
    match pyInt? key with
    | some keycode => (some keycode, some (keycode_to_dotool_name keycode))
    | none => (none, none)

/-- The four optional mapping tables of the loaded configuration (section 3
of the design): absent table = the JSON key is missing from the config
document.  Window tables map a window name to an inner key table. -/
structure Config where
  window_command_mappings : Option (List (String × List (String × String)))
  command_mappings : Option (List (String × String))
  window_mappings : Option (List (String × List (String × String)))
  global_mappings : Option (List (String × String))
deriving DecidableEq

/-- Result of one resolution, corresponding to the heterogeneous return of
`KeyMapper.get_mapping`: a COMMAND pair, a dotool key name, or a keycode.
`none` at the use site stands for the Python None (no mapping). -/
inductive MapResult where
  | command (cmd : String)
  | remapName (n : String)
  | remapCode (c : Int)
deriving DecidableEq

/-- Embeds `KeyMapper.is_command_mapping` (lines 454-458). -/
def is_command_mapping (mapped_value : String) : Bool :=
  pyStartsWith mapped_value "cmd:" || pyStartsWith mapped_value "CMD:"

/-- Embeds `KeyMapper.get_command_from_mapping` (lines 460-467). -/
def get_command_from_mapping (mapped_value : String) : Option String :=
  if pyStartsWith mapped_value "cmd:" then
    some (pyStrip (mapped_value.drop 4))
  else if pyStartsWith mapped_value "CMD:" then
    some (pyStrip (mapped_value.drop 4))
  else none

/-- Python substring containment (the `in` operator on str) over char
lists: the empty needle is contained in everything. -/
def listContainsSub (pat : List Char) : List Char → Bool
  | [] => pat.isEmpty
  | c :: t => pat.isPrefixOf (c :: t) || listContainsSub pat t

/-- Python substring containment of needle in haystack on strings. -/
def strContainsSub (haystack needle : String) : Bool :=
  listContainsSub needle.data haystack.data

/-- Window-name matching as duplicated at lines 606-628 and 695-717 of
`get_mapping`: exact dict containment, then first case-insensitive exact
match, then first bidirectional substring match, in insertion order. -/
def findWindowKey (maps : List (String × List (String × String)))
    (window : String) : Option String :=
  if maps.any (fun p => p.1 == window) then some window
  else
    match maps.find? (fun p => pyLower p.1 == pyLower window) with
    | some p => some p.1
    | none =>
      match maps.find? (fun p =>
          strContainsSub (pyLower window) (pyLower p.1) ||
          strContainsSub (pyLower p.1) (pyLower window)) with
      | some p => some p.1
      | none => none

/-- The candidate lookup keys built at lines 596-598 of `get_mapping`:
stringified keycode, then (when the name is truthy) the dotool name, its
lowercase and its uppercase. -/
def lookupKeysFor (key_code : Int) : List String :=
  let key_name := keycode_to_dotool_name key_code
  [toString key_code] ++
    (if key_name ≠ "" then [key_name, pyLower key_name, pyUpper key_name]
     else [])

/-- Phase 1 of a per-table lookup (lines 636-645 and its three copies):
first candidate key present in the table whose own normalization
reproduces the pressed keycode; candidates failing re-validation are
skipped, not fatal. -/
def directProbe (table : List (String × String)) (key_code : Int)
    (lk : String) : Option String :=
  match List.lookup lk table with
  | some v =>
    if (normalize_config_key lk).1 == some key_code then some v else none
  | none => none

/-- Phase 1 proper: first candidate for which the probe hits. -/
def directTableLookup (table : List (String × String))
    (lookup_keys : List String) (key_code : Int) : Option String :=
  lookup_keys.findSome? (directProbe table key_code)

/-- Phase 2 of a per-table lookup (lines 652-661 and its three copies):
scan the keys actually present, in insertion order, and take the first
whose normalized keycode equals the pressed one. -/
def normalizedTableLookup (table : List (String × String))
    (key_code : Int) : Option String :=
  table.findSome? (fun p =>
    if (normalize_config_key p.1).1 == some key_code then some p.2 else none)

/-- A whole per-table lookup: phase 1, then phase 2 if phase 1 found
nothing.  This exact two-phase block appears once per table in
`get_mapping`. -/
def tableResolve (table : List (String × String))
    (lookup_keys : List String) (key_code : Int) : Option String :=
  match directTableLookup table lookup_keys key_code with
  | some v => some v
  | none => normalizedTableLookup table key_code

/-- Tier 1 of `get_mapping` (lines 604-664): window-specific command
mappings, guarded by a truthy window and table presence. -/
def windowCommandLookup (cfg : Config) (window : Option String)
    (key_code : Int) : Option String :=
  match window with
  | none => none
  | some w =>
    if w ≠ "" then
      match cfg.window_command_mappings with
      | none => none
      | some wcm =>
        match findWindowKey wcm w with
        | none => none
        | some wk =>
          match List.lookup wk wcm with
          | none => none
          | some table => tableResolve table (lookupKeysFor key_code) key_code
    else none

/-- Tier 2 of `get_mapping` (lines 667-690): global command mappings. -/
def commandLookup (cfg : Config) (key_code : Int) : Option String :=
  match cfg.command_mappings with
  | none => none
  | some t => tableResolve t (lookupKeysFor key_code) key_code

/-- Tier 3 of `get_mapping` (lines 693-775): window-specific key
mappings, same window matching and two-phase lookup, yielding the raw
mapped value. -/
def windowMappingLookup (cfg : Config) (window : Option String)
    (key_code : Int) : Option String :=
  match window with
  | none => none
  | some w =>
    if w ≠ "" then
      match cfg.window_mappings with
      | none => none
      | some wm =>
        match findWindowKey wm w with
        | none => none
        | some wk =>
          match List.lookup wk wm with
          | none => none
          | some table => tableResolve table (lookupKeysFor key_code) key_code
    else none

/-- Tier 4 of `get_mapping` (lines 778-835): global key mappings,
yielding the raw mapped value. -/
def globalMappingLookup (cfg : Config) (key_code : Int) : Option String :=
  match cfg.global_mappings with
  | none => none
  | some t => tableResolve t (lookupKeysFor key_code) key_code

/-- The Python `int(mapped)` call on lines 748, 775, 808 and 835: a
parse failure raises ValueError, which nothing in the script catches. -/
def pyIntOrRaise (mapped : String) : Except String Int :=
  match pyInt? mapped with
  | some i => Except.ok i
  | none =>
    Except.error ("ValueError: invalid literal for int with base 10: " ++
      mapped)

/-- Conversion of a matched key-substitution value (lines 740-748 and
copies): under dotool return the normalized name if truthy else the raw
value; otherwise return the normalized keycode if truthy (Python
truthiness: nonzero) else fall back to a literal int parse that may
raise. -/
def convertMappedValue (output_method : String) (mapped : String) :
    Except String MapResult :=
  if output_method == "dotool" then
    match (normalize_config_key mapped).2 with
    | some n =>
      if n ≠ "" then Except.ok (MapResult.remapName n)
      else Except.ok (MapResult.remapName mapped)
    | none => Except.ok (MapResult.remapName mapped)
  else
    match (normalize_config_key mapped).1 with
    | some c =>
      if c ≠ 0 then Except.ok (MapResult.remapCode c)
      else (pyIntOrRaise mapped).map MapResult.remapCode
    | none => (pyIntOrRaise mapped).map MapResult.remapCode

/-- Interpretation of a matched key-substitution value (lines 729-748
and copies): a truthy extracted cmd prefix yields a COMMAND, anything
else goes through output-method conversion. -/
def interpretKeySubValue (output_method : String) (mapped : String) :
    Except String MapResult :=
  match (if is_command_mapping mapped then get_command_from_mapping mapped
         else none) with
  | some cmd =>
    if cmd ≠ "" then Except.ok (MapResult.command cmd)
    else convertMappedValue output_method mapped
  | none => convertMappedValue output_method mapped

/-- Embeds `KeyMapper.get_mapping` (lines 589-838) with the probed window passed
explicitly (the Python reads it through `get_focused_window`): the four
tiers in source order, first hit wins, `ok none` (Python None) when no
table matches.  Values from the two command tables are returned verbatim;
values from the two key tables are interpreted. -/
def get_mapping (cfg : Config) (output_method : String)
    (window : Option String) (key_code : Int) :
    Except String (Option MapResult) :=
  match windowCommandLookup cfg window key_code with
  | some v => Except.ok (some (MapResult.command v))
  | none =>
    match commandLookup cfg key_code with
    | some v => Except.ok (some (MapResult.command v))
    | none =>
      match windowMappingLookup cfg window key_code with
      | some m => (interpretKeySubValue output_method m).map some
      | none =>
        match globalMappingLookup cfg key_code with
        | some m => (interpretKeySubValue output_method m).map some
        | none => Except.ok none

/-- Mutable mapper state touched by event processing: the dotool press
set (`self.pressed_keys`), and whether each output handle is live
(`self.dotool_process`, `self.uinput`). -/
structure MapperState where
  pressed_keys : List String
  dotool_alive : Bool
  uinput_alive : Bool
deriving DecidableEq

/-- Observable effects of processing: a line written to the dotool child,
a uinput write, a uinput synchronization, or a detached command
execution. -/
inductive OutputAction where
  | dotoolLine (line : String)
  | uinputWrite (etype code value : Int)
  | uinputSyn
  | execCommand (cmd : String)
deriving DecidableEq

/-- One kernel input event. -/
structure InputEvent where
  etype : Int
  code : Int
  value : Int
deriving DecidableEq

def EV_SYN : Int := 0
def EV_KEY : Int := 1
def EV_MSC : Int := 4

/-- Embeds `KeyMapper.send_dotool_key` (lines 277-297): dead process or falsy
name does nothing; a press writes keydown only when the name is not in
the press set and records it; a release writes keyup only when it is and
discards it; a repeat (value 2) writes nothing. -/
def send_dotool_key (st : MapperState) (key_name : String) (value : Int) :
    MapperState × List OutputAction :=
  if !st.dotool_alive || key_name == "" then (st, [])
  else if value == 1 then
    if key_name ∈ st.pressed_keys then (st, [])
    else ({ st with pressed_keys := key_name :: st.pressed_keys },
          [OutputAction.dotoolLine ("keydown " ++ key_name ++ "\n")])
  else if value == 0 then
    if key_name ∈ st.pressed_keys then
      ({ st with pressed_keys := st.pressed_keys.erase key_name },
       [OutputAction.dotoolLine ("keyup " ++ key_name ++ "\n")])
    else (st, [])
  else (st, [])

/-- A Python value that is either a string or an int, as flows into
`output_key` in `process_event`. -/
inductive PyVal where
  | str (s : String)
  | int (n : Int)
deriving DecidableEq

/-- Python truthiness for `output_key`: empty string and zero are
falsy. -/
def pyvalTruthy : PyVal → Bool
  | PyVal.str s => s ≠ ""
  | PyVal.int n => n ≠ 0

/-- Embeds `KeyMapper.process_event` (lines 840-888), with config, output
method and the probed window passed explicitly.  Key events: resolve;
COMMAND mappings execute on press only and forward nothing; otherwise
the mapped (or original) key goes to the dotool child when that method
and process are live, or to uinput (write plus syn) when the value is an
int and uinput is live.  Non-key events are forwarded only through
uinput, with an extra syn for EV_SYN events.  A ValueError escaping
`get_mapping` propagates. -/
def process_event (cfg : Config) (output_method : String)
    (window : Option String) (st : MapperState) (ev : InputEvent) :
    Except String (MapperState × List OutputAction) :=
  if ev.etype == EV_KEY then
    match get_mapping cfg output_method window ev.code with
    | Except.error e => Except.error e
    | Except.ok mapped =>
      match mapped with
      | some (MapResult.command cmd) =>
        if ev.value == 1 then Except.ok (st, [OutputAction.execCommand cmd])
        else Except.ok (st, [])
      | _ =>
        let output_key : PyVal :=
          match mapped with
          | some (MapResult.remapName n) => PyVal.str n
          | some (MapResult.remapCode c) => PyVal.int c
          | _ =>
            if output_method == "dotool" then
              PyVal.str (keycode_to_dotool_name ev.code)
            else PyVal.int ev.code
        if output_method == "dotool" && st.dotool_alive &&
            pyvalTruthy output_key then
          match output_key with
          | PyVal.str s => Except.ok (send_dotool_key st s ev.value)
          | PyVal.int n => Except.ok (send_dotool_key st (toString n) ev.value)
        else if st.uinput_alive then
          match output_key with
          | PyVal.int c =>
            Except.ok (st, [OutputAction.uinputWrite EV_KEY c ev.value,
                            OutputAction.uinputSyn])
          | PyVal.str _ => Except.ok (st, [])
        else Except.ok (st, [])
  else
    if st.uinput_alive then
      Except.ok (st, [OutputAction.uinputWrite ev.etype ev.code ev.value] ++
        (if ev.etype == EV_SYN then [OutputAction.uinputSyn] else []))
    else Except.ok (st, [])

/-- Sequential processing of several events, accumulating effects, as the
blocking loop of `KeyMapper.run` does; an escaping exception stops the
loop. -/
def processEvents (cfg : Config) (output_method : String)
    (window : Option String) (st : MapperState) :
    List InputEvent → Except String (MapperState × List OutputAction)
  | [] => Except.ok (st, [])
  | e :: rest =>
    match process_event cfg output_method window st e with
    | Except.error err => Except.error err
    | Except.ok (st1, out1) =>
      match processEvents cfg output_method window st1 rest with
      | Except.error err => Except.error err
      | Except.ok (st2, out2) => Except.ok (st2, out1 ++ out2)

/-- Window-probe state of the mapper: the cached window name and the
monotonic second timestamp of the last successful probe. -/
structure WinState where
  current_window : Option String
  window_cache_time : ℚ
deriving DecidableEq

/-- Embeds `self.window_cache_ttl` (line 39): 100 milliseconds. -/
def windowCacheTtl : ℚ := 1 / 10

/-- Outcome of spawning the external window-focus probe: a completed run
with exit status and captured streams, a 100 ms timeout, a missing
executable, or any other spawn failure. -/
inductive ProbeOutcome where
  | completed (returncode : Int) (stdout : String) (stderr : String)
  | timeout
  | notFound
  | failure
deriving DecidableEq

/-- Embeds `KeyMapper.get_focused_window` (lines 334-452) with the probe
execution abstracted into its outcome: inside the TTL the cache is
returned untouched; a zero exit stores and returns the stripped stdout
(None when empty) and refreshes the timestamp; every failure path falls
through to returning the existing `self.current_window` with the state
unchanged. -/
def get_focused_window (st : WinState) (now : ℚ) (probe : ProbeOutcome) :
    Option String × WinState :=
  if now - st.window_cache_time < windowCacheTtl then (st.current_window, st)
  else
    match probe with
    | ProbeOutcome.completed rc out _ =>
      if rc == 0 then
        let window := pyStrip out
        let window := pyStrip window
        let cw := if window ≠ "" then some window else none
        (cw, { current_window := cw, window_cache_time := now })
      else (st.current_window, st)
    | _ => (st.current_window, st)

/-- A probe outcome the script treats as a failure: non-zero exit,
timeout, missing command, or spawn error. -/
def probeFailed : ProbeOutcome → Bool
  | ProbeOutcome.completed rc _ _ => rc != 0
  | _ => true

/-- All keycodes `name_to_keycode` can produce: the evdev-table codes and
the values of the two fallback maps. -/
def nameToKeycodeRange : List Int :=
  ecodesKEY.map Prod.fst ++ char_map.map Prod.snd ++ name_map.map Prod.snd

/-- Codes whose canonical dotool name does not resolve back to them: the
right-hand modifier variants (collapsed onto the left name) and the
semicolon key (outside the dotool name map, so named with the synthetic
fallback). -/
def rightVariantOrFallbackCodes : List Int := [54, 97, 100, 126, 39]

theorem mem_snd_of_lookup {α β : Type} [BEq α] (k : α) :
    ∀ (l : List (α × β)) (v : β), List.lookup k l = some v →
      v ∈ l.map Prod.snd := by
  intro l
  induction l with
  | nil => intro v h; simp [List.lookup] at h
  | cons p t ih =>
    intro v h
    obtain ⟨k1, v1⟩ := p
    rw [List.lookup_cons] at h
    cases hb : (k == k1) with
    | true =>
      rw [hb] at h
      simp at h
      subst h
      simp
    | false =>
      rw [hb] at h
      simp at h
      simp only [List.map_cons, List.mem_cons]
      exact Or.inr (ih v h)

theorem name_to_keycode_mem_range (s : String) (c : Int)
    (h : name_to_keycode s = some c) : c ∈ nameToKeycodeRange := by
  unfold name_to_keycode at h
  simp only [nameToKeycodeRange, List.mem_append]
  split at h
  · rename_i p hp
    injection h with h1
    subst h1
    exact Or.inl (Or.inl (List.mem_map_of_mem Prod.fst
      (List.mem_of_find?_eq_some hp)))
  · split at h
    · rename_i c1 hc1
      injection h with h1
      subst h1
      split at hc1
      · exact Or.inl (Or.inr (mem_snd_of_lookup _ _ _ hc1))
      · simp at hc1
    · exact Or.inr (mem_snd_of_lookup _ _ _ h)

theorem roundtrip_on_range :
    ∀ c ∈ nameToKeycodeRange, c ∉ rightVariantOrFallbackCodes →
      name_to_keycode (keycode_to_dotool_name c) = some c := by decide

theorem directProbe_single_self (s v : String) (code : Int) :
    directProbe [(s, v)] code s =
      if (normalize_config_key s).1 == some code then some v else none := by
  simp [directProbe, List.lookup_cons]

theorem directProbe_single_other (s v : String) (code : Int) (lk : String)
    (h : lk ≠ s) : directProbe [(s, v)] code lk = none := by
  have hb : (lk == s) = false := beq_eq_false_iff_ne.mpr h
  simp [directProbe, List.lookup_cons, hb]

theorem directTableLookup_single_none (s v : String) (code : Int)
    (h : (normalize_config_key s).1 ≠ some code) (keys : List String) :
    directTableLookup [(s, v)] keys code = none := by
  rw [directTableLookup, List.findSome?_eq_none_iff]
  intro lk _
  by_cases hb : lk = s
  · subst hb
    rw [directProbe_single_self]
    simp [h]
  · exact directProbe_single_other s v code lk hb

theorem directTableLookup_single_opts (s v : String) (code : Int) :
    ∀ keys, directTableLookup [(s, v)] keys code = none ∨
      directTableLookup [(s, v)] keys code = some v := by
  intro keys
  induction keys with
  | nil => exact Or.inl rfl
  | cons k t ih =>
    rw [directTableLookup, List.findSome?_cons]
    rw [directTableLookup] at ih
    by_cases hb : k = s
    · subst hb
      rw [directProbe_single_self]
      by_cases hc : (normalize_config_key k).1 = some code
      · right
        simp [hc]
      · have : ((normalize_config_key k).1 == some code) = false := by
          simpa using hc
        rw [this]
        simpa using ih
    · rw [directProbe_single_other s v code k hb]
      simpa using ih

theorem normalizedTableLookup_single_some (s v : String) (code : Int)
    (h : (normalize_config_key s).1 = some code) :
    normalizedTableLookup [(s, v)] code = some v := by
  simp [normalizedTableLookup, List.findSome?_cons, h]

theorem normalizedTableLookup_single_none (s v : String) (code : Int)
    (h : (normalize_config_key s).1 ≠ some code) :
    normalizedTableLookup [(s, v)] code = none := by
  simp [normalizedTableLookup, List.findSome?_cons, h]

theorem tableResolve_single_some (s v : String) (keys : List String)
    (code : Int) (h : (normalize_config_key s).1 = some code) :
    tableResolve [(s, v)] keys code = some v := by
  rcases directTableLookup_single_opts s v code keys with hd | hd <;>
    simp [tableResolve, hd, normalizedTableLookup_single_some s v code h]

theorem tableResolve_single_none (s v : String) (keys : List String)
    (code : Int) (h : (normalize_config_key s).1 ≠ some code) :
    tableResolve [(s, v)] keys code = none := by
  simp [tableResolve, directTableLookup_single_none s v code h keys,
        normalizedTableLookup_single_none s v code h]

theorem windowCommandLookup_no_table (cm : Option (List (String × String)))
    (wm : Option (List (String × List (String × String))))
    (gm : Option (List (String × String))) (window : Option String)
    (code : Int) :
    windowCommandLookup ⟨none, cm, wm, gm⟩ window code = none := by
  cases window <;> simp [windowCommandLookup]

theorem windowMappingLookup_no_table
    (wcm : Option (List (String × List (String × String))))
    (cm gm : Option (List (String × String))) (window : Option String)
    (code : Int) :
    windowMappingLookup ⟨wcm, cm, none, gm⟩ window code = none := by
  cases window <;> simp [windowMappingLookup]

/-- C2: identifier normalization tries symbolic-name resolution first and
falls back to decimal parsing only when name resolution fails, so the
digit string 1 normalizes to the code of KEY_1 (2) and not key code 1;
a string resolving neither way yields the pair of nones, which matches
no incoming key code in either lookup phase. -/
theorem C2_normalize_name_first :
    (∀ s c, name_to_keycode s = some c →
      normalize_config_key s = (some c, some (keycode_to_dotool_name c))) ∧
    (∀ s, name_to_keycode s = none →
      normalize_config_key s =
        (pyInt? s, (pyInt? s).map keycode_to_dotool_name)) ∧
    normalize_config_key "1" = (some 2, some "1") ∧
    (∀ s, normalize_config_key s = (none, none) →
      ∀ v code keys, directTableLookup [(s, v)] keys code = none ∧
        normalizedTableLookup [(s, v)] code = none) := by
  refine ⟨?_, ?_, rfl, ?_⟩
  · intro s c h
    simp [normalize_config_key, h]
  · intro s h
    simp only [normalize_config_key, h]
    cases hp : pyInt? s <;> simp [hp]
  · intro s h v code keys
    have h1 : (normalize_config_key s).1 ≠ some code := by
      rw [h]
      simp
    exact ⟨directTableLookup_single_none s v code h1 keys,
           normalizedTableLookup_single_none s v code h1⟩

/-- C2 witness: the name q resolves, and normalization of the digit
string 1 gives KEY_1 and never-matching lookups for the unresolvable
string xyzzy. -/
theorem C2_normalize_name_first_witness :
    normalize_config_key "q" = (some 16, some "q") ∧
    directTableLookup [("xyzzy", "a")] (lookupKeysFor 30) 30 = none :=
  ⟨C2_normalize_name_first.1 "q" 16 rfl,
   (C2_normalize_name_first.2.2.2 "xyzzy" rfl "a" 30 (lookupKeysFor 30)).1⟩

/-- C7 as frozen is false: the supported name rightshift resolves to
code 54, whose canonical dotool name is shift, which resolves back to
the left variant 42, not 54. -/
theorem C7_roundtrip_counterexample :
    name_to_keycode "rightshift" = some 54 ∧
    name_to_keycode (keycode_to_dotool_name 54) = some 42 ∧
    name_to_keycode (keycode_to_dotool_name 54) ≠ some 54 := ⟨rfl, rfl, by decide⟩

/-- C7 amended: for every supported symbolic name, the composition of
nameToCode, codeToName, nameToCode reproduces the code, except on the
right-hand modifier codes (54, 97, 100, 126), whose canonical name
collapses onto the left variant, and on codes outside the dotool name
map (such as 39), whose synthetic fallback name does not resolve. -/
theorem C7_roundtrip_amended (s : String) (c : Int)
    (h : name_to_keycode s = some c)
    (hex : c ∉ rightVariantOrFallbackCodes) :
    name_to_keycode (keycode_to_dotool_name c) = some c :=
  roundtrip_on_range c (name_to_keycode_mem_range s c h) hex

/-- C7 witness: the letter a round-trips through code 30. -/
theorem C7_roundtrip_amended_witness :
    name_to_keycode (keycode_to_dotool_name 30) = some 30 :=
  C7_roundtrip_amended "a" 30 rfl (by decide)

/-- C8 as frozen is false: for the physical key with device code 2
(KEY_1), a global mapping keyed by the decimal code string 2 never
matches (the string resolves as the name of KEY_2 first), yielding
passthrough, while the same mapping keyed by the symbolic name 1
remaps to the code of the letter b. -/
theorem C8_representation_counterexample :
    get_mapping ⟨none, none, none, some [("2", "b")]⟩ "uinput" none 2 =
      Except.ok none ∧
    get_mapping ⟨none, none, none, some [("1", "b")]⟩ "uinput" none 2 =
      Except.ok (some (MapResult.remapCode 48)) := ⟨rfl, rfl⟩

/-- C8 amended: representation independence holds whenever the decimal
string written in the config is not itself resolvable as a symbolic key
name: a global mapping keyed by a string that int-parses to the device
code but fails name resolution, and one keyed by any symbolic name of
that key, resolve to the same action for every window context, mapped
value and output method. -/
theorem C8_representation_independence_amended (s nm v output_method : String)
    (window : Option String) (code : Int)
    (hnum : pyInt? s = some code) (hs : name_to_keycode s = none)
    (hnm : name_to_keycode nm = some code) :
    get_mapping ⟨none, none, none, some [(s, v)]⟩ output_method window code =
      get_mapping ⟨none, none, none, some [(nm, v)]⟩ output_method window
        code := by
  have h1 : (normalize_config_key s).1 = some code := by
    simp [normalize_config_key, hs, hnum]
  have h2 : (normalize_config_key nm).1 = some code := by
    simp [normalize_config_key, hnm]
  simp [get_mapping, windowCommandLookup_no_table, commandLookup,
        windowMappingLookup_no_table, globalMappingLookup,
        tableResolve_single_some _ _ _ _ h1,
        tableResolve_single_some _ _ _ _ h2]

/-- C8 witness: key HOME (code 102) configured as the decimal string 102
or as the name home yields the same action. -/
theorem C8_representation_independence_amended_witness :
    get_mapping ⟨none, none, none, some [("102", "end")]⟩ "uinput" none 102 =
      get_mapping ⟨none, none, none, some [("home", "end")]⟩ "uinput" none
        102 :=
  C8_representation_independence_amended "102" "home" "end" "uinput" none 102
    rfl rfl rfl

/-- C10: values stored in the dedicated command tables are returned as
the command text verbatim, with no cmd or CMD prefix detection or
stripping, for both the global and the window-specific command table;
the prefix convention (strip and trim after the 4-character prefix)
applies to values of the key-substitution tables. -/
theorem C10_command_tables_verbatim (k v v2 w output_method : String)
    (window : Option String) (code : Int)
    (hk : (normalize_config_key k).1 = some code)
    (hw : w ≠ "")
    (hpre : pyStartsWith v2 "cmd:" = true)
    (hcmd : pyStrip (v2.drop 4) ≠ "") :
    get_mapping ⟨none, some [(k, v)], none, none⟩ output_method window code =
      Except.ok (some (MapResult.command v)) ∧
    get_mapping ⟨some [(w, [(k, v)])], none, none, none⟩ output_method
        (some w) code = Except.ok (some (MapResult.command v)) ∧
    get_mapping ⟨none, none, none, some [(k, v2)]⟩ output_method window code =
      Except.ok (some (MapResult.command (pyStrip (v2.drop 4)))) := by
  refine ⟨?_, ?_, ?_⟩
  · simp [get_mapping, windowCommandLookup_no_table, commandLookup,
          tableResolve_single_some _ _ _ _ hk]
  · simp [get_mapping, windowCommandLookup, hw, findWindowKey,
          List.lookup_cons, tableResolve_single_some _ _ _ _ hk]
  · simp [get_mapping, windowCommandLookup_no_table, commandLookup,
          windowMappingLookup_no_table, globalMappingLookup,
          tableResolve_single_some _ _ _ _ hk, interpretKeySubValue,
          is_command_mapping, get_command_from_mapping, hpre, hcmd,
          Except.map]

/-- C10 witness: the literal value cmd:xyz stored in command_mappings
executes verbatim, prefix included. -/
theorem C10_command_tables_verbatim_witness :
    get_mapping ⟨none, some [("a", "cmd:xyz")], none, none⟩ "uinput" none
      30 = Except.ok (some (MapResult.command "cmd:xyz")) :=
  (C10_command_tables_verbatim "a" "cmd:xyz" "cmd: xyz" "krita" "uinput"
    none 30 rfl (by decide) rfl (by decide)).1

/-- C6 as frozen is false: with the uinput transport, a remap target that
normalizes neither as a name nor as a decimal code raises an uncaught
ValueError out of the resolver instead of producing a diagnostic and an
unmodified passthrough. -/
theorem C6_unnormalizable_counterexample :
    get_mapping ⟨none, none, none, some [("a", "xyzzy")]⟩ "uinput" none 30 =
      Except.error "ValueError: invalid literal for int with base 10: xyzzy" :=
  rfl

/-- C6 amended: when a matched key-substitution value normalizes neither
way, the dotool path forwards the raw configured string as the remap
target (not the original key), and the uinput path raises ValueError,
which no handler in the script catches, so the event loop dies. -/
theorem C6_unnormalizable_remap_amended (k v : String)
    (window : Option String) (code : Int)
    (hk : (normalize_config_key k).1 = some code)
    (hcmd : is_command_mapping v = false)
    (hval : normalize_config_key v = (none, none)) :
    get_mapping ⟨none, none, none, some [(k, v)]⟩ "dotool" window code =
      Except.ok (some (MapResult.remapName v)) ∧
    get_mapping ⟨none, none, none, some [(k, v)]⟩ "uinput" window code =
      Except.error
        ("ValueError: invalid literal for int with base 10: " ++ v) := by
  have hpy : pyInt? v = none := by
    unfold normalize_config_key at hval
    rcases hnv : name_to_keycode v with _ | c
    · rw [hnv] at hval
      rcases hpv : pyInt? v with _ | i
      · rfl
      · rw [hpv] at hval
        simp at hval
    · rw [hnv] at hval
      simp at hval
  constructor
  · simp [get_mapping, windowCommandLookup_no_table, commandLookup,
          windowMappingLookup_no_table, globalMappingLookup,
          tableResolve_single_some _ _ _ _ hk, interpretKeySubValue, hcmd,
          convertMappedValue, hval, Except.map]
  · simp [get_mapping, windowCommandLookup_no_table, commandLookup,
          windowMappingLookup_no_table, globalMappingLookup,
          tableResolve_single_some _ _ _ _ hk, interpretKeySubValue, hcmd,
          convertMappedValue, hval, pyIntOrRaise, hpy, Except.map]

/-- C6 witness: an unmatched garbage target under dotool is forwarded
raw. -/
theorem C6_unnormalizable_remap_amended_witness :
    get_mapping ⟨none, none, none, some [("a", "xyzzy")]⟩ "dotool" none 30 =
      Except.ok (some (MapResult.remapName "xyzzy")) :=
  (C6_unnormalizable_remap_amended "a" "xyzzy" none 30 rfl rfl rfl).1

/-- C1: resolution consults the four tables in strict order, first match
wins: a window-specific command match decides the result outright; with
it absent a global command match decides; then the window key table,
then the global key table, each interpreted as a key-substitution value;
with no match anywhere the result is passthrough (ok none); and with no
known window the two window tables cannot match at all. -/
theorem C1_resolution_order (cfg : Config) (output_method : String)
    (window : Option String) (key_code : Int) :
    (∀ v, windowCommandLookup cfg window key_code = some v →
      get_mapping cfg output_method window key_code =
        Except.ok (some (MapResult.command v))) ∧
    (windowCommandLookup cfg window key_code = none →
      ∀ v, commandLookup cfg key_code = some v →
      get_mapping cfg output_method window key_code =
        Except.ok (some (MapResult.command v))) ∧
    (windowCommandLookup cfg window key_code = none →
      commandLookup cfg key_code = none →
      ∀ m, windowMappingLookup cfg window key_code = some m →
      get_mapping cfg output_method window key_code =
        (interpretKeySubValue output_method m).map some) ∧
    (windowCommandLookup cfg window key_code = none →
      commandLookup cfg key_code = none →
      windowMappingLookup cfg window key_code = none →
      ∀ m, globalMappingLookup cfg key_code = some m →
      get_mapping cfg output_method window key_code =
        (interpretKeySubValue output_method m).map some) ∧
    (windowCommandLookup cfg window key_code = none →
      commandLookup cfg key_code = none →
      windowMappingLookup cfg window key_code = none →
      globalMappingLookup cfg key_code = none →
      get_mapping cfg output_method window key_code = Except.ok none) ∧
    (window = none →
      windowCommandLookup cfg window key_code = none ∧
      windowMappingLookup cfg window key_code = none) := by
  refine ⟨?_, ?_, ?_, ?_, ?_, ?_⟩
  · intro v h
    simp [get_mapping, h]
  · intro h0 v h
    simp [get_mapping, h0, h]
  · intro h0 h1 m h
    simp [get_mapping, h0, h1, h]
  · intro h0 h1 h2 m h
    simp [get_mapping, h0, h1, h2, h]
  · intro h0 h1 h2 h3
    simp [get_mapping, h0, h1, h2, h3]
  · intro h
    subst h
    exact ⟨by simp [windowCommandLookup], by simp [windowMappingLookup]⟩

/-- C1 witness: with all four tables populated for the letter a and the
window krita focused, the window-specific command wins. -/
theorem C1_resolution_order_witness :
    get_mapping ⟨some [("krita", [("a", "wc")])], some [("a", "gc")],
        some [("krita", [("a", "b")])], some [("a", "c")]⟩ "uinput"
      (some "krita") 30 = Except.ok (some (MapResult.command "wc")) :=
  (C1_resolution_order _ "uinput" (some "krita") 30).1 "wc" rfl

/-- C3: for a key resolving to a command, the sequence press, repeat,
repeat, release executes the command exactly once (on the press) and
forwards nothing to any output transport, leaving the mapper state
untouched. -/
theorem C3_command_fires_once (cfg : Config) (output_method : String)
    (window : Option String) (st : MapperState) (code : Int) (cmd : String)
    (h : get_mapping cfg output_method window code =
      Except.ok (some (MapResult.command cmd))) :
    processEvents cfg output_method window st
      [⟨EV_KEY, code, 1⟩, ⟨EV_KEY, code, 2⟩, ⟨EV_KEY, code, 2⟩,
       ⟨EV_KEY, code, 0⟩] =
      Except.ok (st, [OutputAction.execCommand cmd]) := by
  simp [processEvents, process_event, h, EV_KEY]

/-- C3 witness: a concrete command mapping on the letter a executes
once across press, two repeats and release. -/
theorem C3_command_fires_once_witness :
    processEvents ⟨none, some [("a", "notify")], none, none⟩ "uinput" none
      ⟨[], false, true⟩
      [⟨EV_KEY, 30, 1⟩, ⟨EV_KEY, 30, 2⟩, ⟨EV_KEY, 30, 2⟩, ⟨EV_KEY, 30, 0⟩] =
      Except.ok (⟨[], false, true⟩, [OutputAction.execCommand "notify"]) :=
  C3_command_fires_once ⟨none, some [("a", "notify")], none, none⟩ "uinput"
    none ⟨[], false, true⟩ 30 "notify" rfl

/-- C4: through the live dotool transport, press then repeat then
release of one key name writes exactly one keydown line and one keyup
line; the repeat writes nothing, a second press while the name is in the
press set writes nothing, and a release of a name not in the press set
writes nothing. -/
theorem C4_dotool_press_dedup (st : MapperState) (name : String)
    (halive : st.dotool_alive = true) (hnot : name ∉ st.pressed_keys)
    (hne : name ≠ "") :
    (send_dotool_key st name 1).2 =
      [OutputAction.dotoolLine ("keydown " ++ name ++ "\n")] ∧
    (send_dotool_key (send_dotool_key st name 1).1 name 2).2 = [] ∧
    (send_dotool_key (send_dotool_key (send_dotool_key st name 1).1 name
        2).1 name 0).2 =
      [OutputAction.dotoolLine ("keyup " ++ name ++ "\n")] ∧
    (send_dotool_key (send_dotool_key st name 1).1 name 1).2 = [] ∧
    (send_dotool_key st name 0).2 = [] := by
  refine ⟨?_, ?_, ?_, ?_, ?_⟩ <;>
    simp [send_dotool_key, halive, hne, hnot]

/-- C4 witness: a full press, repeat, release cycle of the name a from
the empty press set. -/
theorem C4_dotool_press_dedup_witness :
    (send_dotool_key ⟨[], true, false⟩ "a" 1).2 =
      [OutputAction.dotoolLine "keydown a\n"] ∧
    (send_dotool_key (send_dotool_key ⟨[], true, false⟩ "a" 1).1 "a" 2).2 =
      [] := by
  have h := C4_dotool_press_dedup ⟨[], true, false⟩ "a" rfl (by decide)
    (by decide)
  exact ⟨h.1, h.2.1⟩

/-- C5 as frozen is false: after a successful probe cached the window
krita, a later timed-out probe outside the cache TTL reports the stale
krita, not the absence of a window. -/
theorem C5_probe_failure_counterexample :
    (get_focused_window ⟨some "krita", 0⟩ 1 ProbeOutcome.timeout).1 =
      some "krita" ∧
    (get_focused_window ⟨some "krita", 0⟩ 1 ProbeOutcome.timeout).1 ≠
      none := by
  have h : ¬ ((1 : ℚ) - 0 < windowCacheTtl) := by
    norm_num [windowCacheTtl]
  constructor
  · simp [get_focused_window, h]
  · simp [get_focused_window, h]

/-- C5 amended: when the probe times out or exits nonzero (or cannot be
spawned) outside the cache TTL, the provider returns whatever window an
earlier successful probe had stored, with cache state unchanged; it
reports no window only if none was ever stored. -/
theorem C5_probe_failure_amended (st : WinState) (now : ℚ)
    (probe : ProbeOutcome)
    (hcache : ¬ now - st.window_cache_time < windowCacheTtl)
    (hfail : probeFailed probe = true) :
    get_focused_window st now probe = (st.current_window, st) := by
  unfold get_focused_window
  rw [if_neg hcache]
  cases probe with
  | completed rc out err =>
    have hrc : (rc == 0) = false := by
      simp only [probeFailed, bne_iff_ne] at hfail
      simpa using hfail
    simp [hrc]
  | timeout => rfl
  | notFound => rfl
  | failure => rfl

/-- C5 amended witness: a nonzero-exit probe leaves the empty cache
empty. -/
theorem C5_probe_failure_amended_witness :
    get_focused_window ⟨none, 0⟩ 1 (ProbeOutcome.completed 1 "krita" "") =
      (none, ⟨none, 0⟩) :=
  C5_probe_failure_amended ⟨none, 0⟩ 1 (ProbeOutcome.completed 1 "krita" "")
    (by norm_num [windowCacheTtl]) rfl

/-- C9 as frozen is false: with the streaming transport active (dotool
process live, no uinput device), a non-key event is dropped, not passed
through. -/
theorem C9_nonkey_passthrough_counterexample :
    process_event ⟨none, none, none, none⟩ "dotool" none ⟨[], true, false⟩
      ⟨4, 4, 5⟩ = Except.ok (⟨[], true, false⟩, []) ∧
    MapperState.dotool_alive ⟨[], true, false⟩ = true := ⟨rfl, rfl⟩

/-- C9 amended: a non-key event is forwarded unmodified (with a trailing
synchronization for sync events) exactly when the uinput device is live;
under the streaming transport alone it is dropped. -/
theorem C9_nonkey_passthrough_amended (cfg : Config) (output_method : String)
    (window : Option String) (st : MapperState) (ev : InputEvent)
    (h : ev.etype ≠ EV_KEY) :
    process_event cfg output_method window st ev =
      Except.ok (st,
        if st.uinput_alive then
          [OutputAction.uinputWrite ev.etype ev.code ev.value] ++
            (if ev.etype == EV_SYN then [OutputAction.uinputSyn] else [])
        else []) := by
  have hb : (ev.etype == EV_KEY) = false := beq_eq_false_iff_ne.mpr h
  simp only [process_event, hb, Bool.false_eq_true, if_false]
  cases st.uinput_alive <;> simp

/-- C9 amended witness: a synchronization event passes through uinput
with its trailing syn. -/
theorem C9_nonkey_passthrough_amended_witness :
    process_event ⟨none, none, none, none⟩ "uinput" none ⟨[], false, true⟩
      ⟨0, 5, 7⟩ =
      Except.ok (⟨[], false, true⟩,
        [OutputAction.uinputWrite 0 5 7, OutputAction.uinputSyn]) := by
  rw [C9_nonkey_passthrough_amended ⟨none, none, none, none⟩ "uinput" none
    ⟨[], false, true⟩ ⟨0, 5, 7⟩ (by decide)]
  rfl

end KeymapUtil
